import Mathlib

/-!
Verification of the request/response adaptation layer of the
`jupyterhub_manager` gateway (files `client/base.py`, `api/main.py`,
`models.py`), via a shallow embedding.

The adapter (`HubClient`) is embedded as a family of operations
parameterised by an abstract upstream `Upstream : Request → Except String
Response` (a transport failure is `Except.error detail`; a delivered HTTP
response is `Except.ok resp`).  Each operation is a function
`HubM α = List Request → Except HubError α × List Request`: it threads the
trace of issued upstream requests, so theorems can speak about exactly
which requests an operation sends and with which JSON bodies.

JSON values are a small inductive `JVal`; Python dicts become ordered
association lists (the source builds every payload with unique keys).
Python truthiness of the optional parameters (`if note:`, `if users:`,
`options or ...`) is transcribed literally with emptiness tests.
-/

/-- JSON values, as decoded request/response bodies. -/
inductive JVal where
  | jnull : JVal
  | jbool : Bool → JVal
  | jint : Int → JVal
  | jstr : String → JVal
  | jarr : List JVal → JVal
  | jobj : List (String × JVal) → JVal

/-- First-match lookup in an association list (Python `dict.get` for the
well-formed unique-key dicts this code produces and consumes). -/
def jlookup (fields : List (String × JVal)) (key : String) : Option JVal :=
  match fields with
  | [] => none
  | (k, v) :: rest => if k = key then some v else jlookup rest key

/-- HTTP methods used by `HubClient`. -/
inductive Method where
  | GET : Method
  | POST : Method
  | DELETE : Method
  | PATCH : Method
deriving DecidableEq, Repr

/-- One outbound request to the upstream hub: method, path below
`<base_url>/hub/api`, and the JSON body (`none` when no body is sent,
as when httpx is given `json=None`). -/
structure Request where
  method : Method
  path : String
  jsonBody : Option JVal

/-- An upstream HTTP response: status code, and the decoded JSON body.
`body = none` models empty content (`resp.content` falsy); `body = some v`
models content that decodes to `v`. -/
structure Response where
  status : Nat
  body : Option JVal

/-- `httpx.Response.raise_for_status` raises unless the status is 2xx. -/
def is2xx (status : Nat) : Bool :=
  decide (200 ≤ status) && decide (status < 300)

/-- Failures an adapter call can raise:
`httpStatus` is `httpx.HTTPStatusError` (non-2xx upstream response,
carrying the message that `str(e)` would show); `transport` is
`httpx.RequestError` (DNS/TLS/connect/timeout); `decodeError` is
`json.JSONDecodeError` from `resp.json()` on an undecodable body;
`pyError` is any other Python-level error (e.g. `AttributeError`). -/
inductive HubError where
  | httpStatus : Nat → String → HubError
  | transport : String → HubError
  | decodeError : HubError
  | pyError : String → HubError
deriving DecidableEq, Repr

/-- Models `str(e)` for `httpx.HTTPStatusError`: the exact text comes from
the httpx library; the repository only relies on it describing the status
and URL.  It is non-empty by construction. -/
def status_error_str (status : Nat) (path : String) : String :=
  (if status < 500 then "Client error " else "Server error ")
    ++ toString status ++ " for url " ++ path

/-- The abstract upstream hub: what one HTTP exchange yields.
`Except.error d` is a transport-level failure with description `d`;
`Except.ok resp` is a delivered response (any status). -/
def Upstream : Type := Request → Except String Response

/-- Adapter computations: thread the trace of issued upstream requests and
may raise a `HubError`. -/
def HubM (α : Type) : Type := List Request → Except HubError α × List Request

/-- `HubClient._request`: issue the request, then `raise_for_status`. -/
def hreq (U : Upstream) (m : Method) (p : String) (b : Option JVal) :
    HubM Response := fun log =>
  let req : Request := ⟨m, p, b⟩
  let log2 := log ++ [req]
  match U req with
  | .error d => (.error (.transport d), log2)
  | .ok resp =>
      if is2xx resp.status then (.ok resp, log2)
      else (.error (.httpStatus resp.status (status_error_str resp.status p)), log2)

/-- `HubClient.get`: GET then decode the body. -/
def hget (U : Upstream) (p : String) : HubM JVal := fun log =>
  match hreq U .GET p none log with
  | (.ok resp, log2) =>
      match resp.body with
      | some v => (.ok v, log2)
      | none => (.error .decodeError, log2)
  | (.error e, log2) => (.error e, log2)

/-- `HubClient.post`: POST with optional JSON body, then decode. -/
def hpost (U : Upstream) (p : String) (j : Option JVal) : HubM JVal := fun log =>
  match hreq U .POST p j log with
  | (.ok resp, log2) =>
      match resp.body with
      | some v => (.ok v, log2)
      | none => (.error .decodeError, log2)
  | (.error e, log2) => (.error e, log2)

/-- The literal `{"status": "deleted"}` synthesized by `HubClient.delete`. -/
def statusDeleted : JVal := .jobj [("status", .jstr "deleted")]

/-- `HubClient.delete`: DELETE; if the response content is empty return the
literal `statusDeleted`, otherwise the decoded body. -/
def hdelete (U : Upstream) (p : String) : HubM JVal := fun log =>
  match hreq U .DELETE p none log with
  | (.ok resp, log2) =>
      match resp.body with
      | some v => (.ok v, log2)
      | none => (.ok statusDeleted, log2)
  | (.error e, log2) => (.error e, log2)

/-- `HubClient.patch`: PATCH with optional JSON body, then decode. -/
def hpatch (U : Upstream) (p : String) (j : Option JVal) : HubM JVal := fun log =>
  match hreq U .PATCH p j log with
  | (.ok resp, log2) =>
      match resp.body with
      | some v => (.ok v, log2)
      | none => (.error .decodeError, log2)
  | (.error e, log2) => (.error e, log2)

/-! ## High-level adapter operations (`HubClient`, `client/base.py`)

Every operation keeps its source name.  Optional parameters keep their
source defaults; Python truthiness tests (`if note:`, `if users:`,
`options or ...`) are transcribed with explicit emptiness checks. -/

/-- `get_health`: GET `/health`; a `httpx.HTTPStatusError` (and only that
error class) is caught and converted to the degraded payload with
`detail = str(e)`. -/
def get_health (U : Upstream) : HubM JVal := fun log =>
  match hget U "/health" log with
  | (.ok v, log2) => (.ok v, log2)
  | (.error (.httpStatus _st msg), log2) =>
      (.ok (.jobj [("status", .jstr "error"), ("detail", .jstr msg)]), log2)
  | (.error e, log2) => (.error e, log2)

/-- `get_info`. -/
def get_info (U : Upstream) : HubM JVal := hget U "/info"

/-- `list_users`. -/
def list_users (U : Upstream) : HubM JVal := hget U "/users"

/-- `get_user`. -/
def get_user (U : Upstream) (name : String) : HubM JVal :=
  hget U ("/users/" ++ name)

/-- `create_user`: the body always carries both `name` and `admin`;
`admin` defaults to `false` when the caller omits it. -/
def create_user (U : Upstream) (name : String) (admin : Bool := false) :
    HubM JVal :=
  hpost U "/users" (some (.jobj [("name", .jstr name), ("admin", .jbool admin)]))

/-- `delete_user`. -/
def delete_user (U : Upstream) (name : String) : HubM JVal :=
  hdelete U ("/users/" ++ name)

/-- `modify_user`: `admin` is added to the body only when it is not None. -/
def modify_user (U : Upstream) (name : String) (admin : Option Bool := none) :
    HubM JVal :=
  let data : List (String × JVal) :=
    match admin with
    | some a => [("admin", .jbool a)]
    | none => []
  hpatch U ("/users/" ++ name) (some (.jobj data))

/-- `list_servers`: fetches the full user record and extracts
`user_data.get("servers", %)` — a derived read, no server endpoint is hit.
(`pyError` models the `AttributeError` Python would raise if the decoded
record were not a dict.) -/
def list_servers (U : Upstream) (user : String) : HubM JVal := fun log =>
  match hget U ("/users/" ++ user) log with
  | (.ok user_data, log2) =>
      match user_data with
      | .jobj fields => (.ok ((jlookup fields "servers").getD (.jobj [])), log2)
      | _ => (.error (.pyError "AttributeError"), log2)
  | (.error e, log2) => (.error e, log2)

/-- `get_server`. -/
def get_server (U : Upstream) (user : String) (server_name : String := "") :
    HubM JVal :=
  hget U ("/users/" ++ user ++ "/servers/" ++ server_name)

/-- `start_server`: `json_data = options or %` — a None or empty options
dict becomes the empty dict. -/
def start_server (U : Upstream) (user : String) (server_name : String := "")
    (options : Option (List (String × JVal)) := none) : HubM JVal :=
  let json_data : List (String × JVal) :=
    match options with
    | some o => if o.isEmpty then [] else o
    | none => []
  hpost U ("/users/" ++ user ++ "/servers/" ++ server_name)
    (some (.jobj json_data))

/-- `stop_server`. -/
def stop_server (U : Upstream) (user : String) (server_name : String := "") :
    HubM JVal :=
  hdelete U ("/users/" ++ user ++ "/servers/" ++ server_name)

/-- `list_groups`. -/
def list_groups (U : Upstream) : HubM JVal := hget U "/groups"

/-- `get_group`. -/
def get_group (U : Upstream) (name : String) : HubM JVal :=
  hget U ("/groups/" ++ name)

/-- `create_group`: `users` joins the body only when truthy (not None and
non-empty). -/
def create_group (U : Upstream) (name : String)
    (users : Option (List String) := none) : HubM JVal :=
  let data : List (String × JVal) :=
    [("name", .jstr name)] ++
      (match users with
       | some us => if us.isEmpty then [] else [("users", .jarr (us.map .jstr))]
       | none => [])
  hpost U "/groups" (some (.jobj data))

/-- `delete_group`. -/
def delete_group (U : Upstream) (name : String) : HubM JVal :=
  hdelete U ("/groups/" ++ name)

/-- `add_user_to_group`: POST to the group's users sub-resource with the
username inside a list-valued field. -/
def add_user_to_group (U : Upstream) (group_name username : String) :
    HubM JVal :=
  hpost U ("/groups/" ++ group_name ++ "/users")
    (some (.jobj [("users", .jarr [.jstr username])]))

/-- `remove_user_from_group`: DELETE the user-scoped sub-resource under the
group; no body. -/
def remove_user_from_group (U : Upstream) (group_name username : String) :
    HubM JVal :=
  hdelete U ("/groups/" ++ group_name ++ "/users/" ++ username)

/-- `list_services`. -/
def list_services (U : Upstream) : HubM JVal := hget U "/services"

/-- `get_service`. -/
def get_service (U : Upstream) (name : String) : HubM JVal :=
  hget U ("/services/" ++ name)

/-- `list_tokens`. -/
def list_tokens (U : Upstream) : HubM JVal := hget U "/tokens"

/-- `get_token`. -/
def get_token (U : Upstream) (token_id : String) : HubM JVal :=
  hget U ("/tokens/" ++ token_id)

/-- `create_token`: `note` and `expires_in` join the body only when truthy
(a Python empty string and 0 are falsy). -/
def create_token (U : Upstream) (user : String) (note : Option String := none)
    (expires_in : Option Int := none) : HubM JVal :=
  let data : List (String × JVal) :=
    (match note with
     | some n => if n.isEmpty then [] else [("note", .jstr n)]
     | none => []) ++
    (match expires_in with
     | some e => if e = 0 then [] else [("expires_in", .jint e)]
     | none => [])
  hpost U ("/users/" ++ user ++ "/tokens") (some (.jobj data))

/-- `delete_token`. -/
def delete_token (U : Upstream) (user token_id : String) : HubM JVal :=
  hdelete U ("/users/" ++ user ++ "/tokens/" ++ token_id)

/-- `shutdown_hub`: POST with no body (httpx `json=None`). -/
def shutdown_hub (U : Upstream) : HubM JVal := hpost U "/shutdown" none

/-- `get_proxy`. -/
def get_proxy (U : Upstream) : HubM JVal := hget U "/proxy"

/-- `force_proxy_check`. -/
def force_proxy_check (U : Upstream) : HubM JVal := hpost U "/proxy" none

/-- `cull_servers`. -/
def cull_servers (U : Upstream) : HubM JVal := hpost U "/cull" none

/-- `user_activity`: `servers` joins the body only when truthy. -/
def user_activity (U : Upstream) (user : String)
    (servers : Option (List String) := none) : HubM JVal :=
  let data : List (String × JVal) :=
    match servers with
    | some ss => if ss.isEmpty then [] else [("servers", .jarr (ss.map .jstr))]
    | none => []
  hpost U ("/users/" ++ user ++ "/activity") (some (.jobj data))

/-! ## Request models (`models.py`) -/

/-- `CreateUserRequest`: name, admin flag defaulting to false. -/
structure CreateUserRequest where
  name : String
  admin : Bool := false

/-- `CreateGroupRequest`: name, initial users defaulting to the empty list. -/
structure CreateGroupRequest where
  name : String
  users : List String := []

/-- `CreateTokenRequest`: note, expiry, plus role/scope lists that exist in
the request shape. -/
structure CreateTokenRequest where
  note : Option String := none
  expires_in : Option Int := none
  roles : List String := []
  scopes : List String := []

/-! ## Gateway API layer (`api/main.py`)

A route handler body either returns a JSON value or raises: a
`fastapi.HTTPException` it constructed itself, or an adapter error that
propagates out of the handler.  `serve` is FastAPI around the handler: a
normal return is serialized with the route decorator's `status_code`, an
`HTTPException` becomes a response with its own status and a
`detail` body, and any other exception becomes the framework's generic
500 Internal Server Error response.  Every route runs its adapter call on
a fresh client, hence with the empty request trace. -/

/-- What a route handler body can raise. -/
inductive PyExc where
  | http : Nat → String → PyExc
  | hub : HubError → PyExc

/-- An inbound HTTP response produced by the gateway. -/
structure HttpResponse where
  status : Nat
  body : JVal

/-- FastAPI's generic response for an unhandled exception in a handler. -/
def internalError : HttpResponse := ⟨500, .jstr "Internal Server Error"⟩

/-- FastAPI around one handler outcome (see section comment). -/
def serve (successCode : Nat) (r : Except PyExc JVal) : HttpResponse :=
  match r with
  | .ok v => ⟨successCode, v⟩
  | .error (.http st d) => ⟨st, .jobj [("detail", .jstr d)]⟩
  | .error (.hub _) => internalError

/-- A handler body with no local try/except: an adapter failure propagates
out of the handler unchanged. -/
def plain (x : Except HubError JVal) : Except PyExc JVal :=
  match x with
  | .ok v => .ok v
  | .error e => .error (.hub e)

/-- GET `/health` (status 200). -/
def route_health (U : Upstream) : HttpResponse :=
  serve 200 (plain (get_health U []).1)

/-- GET `/info` (status 200). -/
def route_info (U : Upstream) : HttpResponse :=
  serve 200 (plain (get_info U []).1)

/-- GET `/users` (status 200). -/
def route_list_users (U : Upstream) : HttpResponse :=
  serve 200 (plain (list_users U []).1)

/-- GET `/users/(username)` (status 200): the one handler with a local
try/except — any exception from the adapter call becomes
`HTTPException(404, "User (username) not found")`. -/
def route_get_user (U : Upstream) (username : String) : HttpResponse :=
  serve 200
    (match (get_user U username []).1 with
     | .ok v => .ok v
     | .error _ => .error (.http 404 ("User " ++ username ++ " not found")))

/-- POST `/users` (status 201). -/
def route_create_user (U : Upstream) (user_data : CreateUserRequest) :
    HttpResponse :=
  serve 201 (plain (create_user U user_data.name user_data.admin []).1)

/-- DELETE `/users/(username)` (status 204): discards the adapter result. -/
def route_delete_user (U : Upstream) (username : String) : HttpResponse :=
  serve 204
    (match (delete_user U username []).1 with
     | .ok _ => .ok statusDeleted
     | .error e => .error (.hub e))

/-- PATCH `/users/(username)` (status 200). -/
def route_modify_user (U : Upstream) (username : String)
    (admin : Option Bool := none) : HttpResponse :=
  serve 200 (plain (modify_user U username admin []).1)

/-- GET `/users/(username)/servers` (status 200). -/
def route_list_user_servers (U : Upstream) (username : String) : HttpResponse :=
  serve 200 (plain (list_servers U username []).1)

/-- GET `/users/(username)/servers/(server_name)` (status 200). -/
def route_get_server (U : Upstream) (username : String)
    (server_name : String := "") : HttpResponse :=
  serve 200 (plain (get_server U username server_name []).1)

/-- POST `/users/(username)/servers/(server_name)` (status 201): the route
calls `start_server` without options. -/
def route_start_server (U : Upstream) (username : String)
    (server_name : String := "") : HttpResponse :=
  serve 201 (plain (start_server U username server_name none []).1)

/-- DELETE `/users/(username)/servers/(server_name)` (status 202). -/
def route_stop_server (U : Upstream) (username : String)
    (server_name : String := "") : HttpResponse :=
  serve 202 (plain (stop_server U username server_name []).1)

/-- GET `/groups` (status 200). -/
def route_list_groups (U : Upstream) : HttpResponse :=
  serve 200 (plain (list_groups U []).1)

/-- GET `/groups/(group_name)` (status 200). -/
def route_get_group (U : Upstream) (group_name : String) : HttpResponse :=
  serve 200 (plain (get_group U group_name []).1)

/-- POST `/groups` (status 201): forwards `group_data.users` (a list,
possibly empty) as the `users` argument. -/
def route_create_group (U : Upstream) (group_data : CreateGroupRequest) :
    HttpResponse :=
  serve 201 (plain (create_group U group_data.name (some group_data.users) []).1)

/-- DELETE `/groups/(group_name)` (status 204): discards the adapter
result. -/
def route_delete_group (U : Upstream) (group_name : String) : HttpResponse :=
  serve 204
    (match (delete_group U group_name []).1 with
     | .ok _ => .ok statusDeleted
     | .error e => .error (.hub e))

/-- POST `/groups/(group_name)/users` (status 200). -/
def route_add_user_to_group (U : Upstream) (group_name username : String) :
    HttpResponse :=
  serve 200 (plain (add_user_to_group U group_name username []).1)

/-- DELETE `/groups/(group_name)/users/(username)` (status 204): returns
the literal removed payload on success. -/
def route_remove_user_from_group (U : Upstream) (group_name username : String) :
    HttpResponse :=
  serve 204
    (match (remove_user_from_group U group_name username []).1 with
     | .ok _ => .ok (.jobj [("status", .jstr "removed")])
     | .error e => .error (.hub e))

/-- GET `/services` (status 200). -/
def route_list_services (U : Upstream) : HttpResponse :=
  serve 200 (plain (list_services U []).1)

/-- GET `/services/(service_name)` (status 200). -/
def route_get_service (U : Upstream) (service_name : String) : HttpResponse :=
  serve 200 (plain (get_service U service_name []).1)

/-- GET `/tokens` (status 200). -/
def route_list_tokens (U : Upstream) : HttpResponse :=
  serve 200 (plain (list_tokens U []).1)

/-- POST `/users/(username)/tokens` (status 201): only `note` and
`expires_in` are read from the request model. -/
def route_create_token (U : Upstream) (username : String)
    (token_data : CreateTokenRequest) : HttpResponse :=
  serve 201
    (plain (create_token U username token_data.note token_data.expires_in []).1)

/-- DELETE `/users/(username)/tokens/(token_id)` (status 204): discards the
adapter result. -/
def route_delete_token (U : Upstream) (username token_id : String) :
    HttpResponse :=
  serve 204
    (match (delete_token U username token_id []).1 with
     | .ok _ => .ok statusDeleted
     | .error e => .error (.hub e))

/-- POST `/admin/shutdown` (status 200). -/
def route_shutdown_hub (U : Upstream) : HttpResponse :=
  serve 200 (plain (shutdown_hub U []).1)

/-- GET `/admin/proxy` (status 200). -/
def route_get_proxy_info (U : Upstream) : HttpResponse :=
  serve 200 (plain (get_proxy U []).1)

/-- POST `/admin/cull` (status 200). -/
def route_cull_servers (U : Upstream) : HttpResponse :=
  serve 200 (plain (cull_servers U []).1)

/-! ## Scoped client acquisition (`get_client`, `api/main.py`)

`get_client` is a generator dependency: `client = HubClient()` acquires
the connection resource, `yield client` hands it to the handler, and the
`finally` block runs `await client.close()` exactly once on teardown —
whether the handler returned or raised.  `HubClientState.closeCount`
counts close calls on the acquired client; a handler is any function of
the client state (adapter operations never call `close`, so a handler
built from one leaves the count unchanged). -/

/-- The per-request client resource: how many times `close` was called on
it.  A freshly constructed `HubClient` has count 0. -/
structure HubClientState where
  closeCount : Nat
deriving DecidableEq, Repr

/-- `HubClient.close`. -/
def closeClient (s : HubClientState) : HubClientState :=
  ⟨s.closeCount + 1⟩

/-- FastAPI running one request through the `get_client` dependency:
construct the client, run the handler on it (it may raise: the
`Except.error` outcome), and close in the `finally` position on both
outcomes. -/
def run_with_client {α : Type}
    (handler : HubClientState → Except HubError α × HubClientState) :
    Except HubError α × HubClientState :=
  let s0 : HubClientState := ⟨0⟩
  let r := handler s0
  (r.1, closeClient r.2)

/-- A handler that performs one adapter call: the adapter operations act on
the upstream connection, never on the client resource state. -/
def handler_of_op {α : Type} (op : HubM α) :
    HubClientState → Except HubError α × HubClientState :=
  fun s => ((op []).1, s)

/-! ## Concrete upstream environments

Closed upstream behaviors used to instantiate the theorems below on
concrete inputs. -/

/-- An upstream that fails at the transport level on every request
(connection refused). -/
def U_transportFail : Upstream := fun _ => .error "connection refused"

/-- An upstream that rejects every request with HTTP 404. -/
def U_status404 : Upstream :=
  fun _ => .ok ⟨404, some (.jobj [("message", .jstr "Not Found")])⟩

/-- An upstream that answers every request with HTTP 200 and a small JSON
body. -/
def U_okHealth : Upstream :=
  fun _ => .ok ⟨200, some (.jobj [("status", .jstr "ok")])⟩

/-- An upstream that answers every request with HTTP 200 and an empty
object body. -/
def U_okEmptyObj : Upstream := fun _ => .ok ⟨200, some (.jobj [])⟩

/-- An upstream for exercising `delete`: an empty 204 body on the
`alice` resource, a non-empty 200 body elsewhere. -/
def U_deleteDemo : Upstream := fun req =>
  if req.path = "/users/alice" then .ok ⟨204, none⟩
  else .ok ⟨200, some (.jobj [("ok", .jbool true)])⟩

/-- A server mapping with a default (empty-named) server and a `gpu`
server. -/
def aliceServersVal : JVal :=
  .jobj [("", .jobj [("ready", .jbool true)]),
         ("gpu", .jobj [("ready", .jbool false)])]

/-- The fields of the full `alice` user record. -/
def aliceFields : List (String × JVal) :=
  [("name", .jstr "alice"), ("admin", .jbool false),
   ("servers", aliceServersVal)]

/-- An upstream serving the `alice` user record on its user endpoint. -/
def U_aliceServers : Upstream := fun req =>
  if req.path = "/users/alice" then .ok ⟨200, some (.jobj aliceFields)⟩
  else .error "unexpected request"

/-- The degraded health payload built by `get_health` from `str(e)`. -/
def degradedHealth (d : String) : JVal :=
  .jobj [("status", .jstr "error"), ("detail", .jstr d)]

/-! ## Trace lemmas

The request trace an operation leaves is independent of the upstream's
answers: `hreq` records the request before consulting the upstream. -/

theorem hreq_snd (U : Upstream) (m : Method) (p : String) (b : Option JVal)
    (log : List Request) : (hreq U m p b log).2 = log ++ [⟨m, p, b⟩] := by
  rcases h : U ⟨m, p, b⟩ with d | resp
  · simp only [hreq, h]
  · simp only [hreq, h]
    by_cases h2 : is2xx resp.status <;> simp [h2]

theorem hget_snd (U : Upstream) (p : String) (log : List Request) :
    (hget U p log).2 = log ++ [⟨.GET, p, none⟩] := by
  have h := hreq_snd U .GET p none log
  unfold hget
  rcases hh : hreq U .GET p none log with ⟨r, log2⟩
  rw [hh] at h
  rcases r with e | ⟨st, body⟩
  · exact h
  · cases body <;> exact h

theorem hpost_snd (U : Upstream) (p : String) (j : Option JVal)
    (log : List Request) : (hpost U p j log).2 = log ++ [⟨.POST, p, j⟩] := by
  have h := hreq_snd U .POST p j log
  unfold hpost
  rcases hh : hreq U .POST p j log with ⟨r, log2⟩
  rw [hh] at h
  rcases r with e | ⟨st, body⟩
  · exact h
  · cases body <;> exact h

theorem hdelete_snd (U : Upstream) (p : String) (log : List Request) :
    (hdelete U p log).2 = log ++ [⟨.DELETE, p, none⟩] := by
  have h := hreq_snd U .DELETE p none log
  unfold hdelete
  rcases hh : hreq U .DELETE p none log with ⟨r, log2⟩
  rw [hh] at h
  rcases r with e | ⟨st, body⟩
  · exact h
  · cases body <;> exact h

theorem hpatch_snd (U : Upstream) (p : String) (j : Option JVal)
    (log : List Request) : (hpatch U p j log).2 = log ++ [⟨.PATCH, p, j⟩] := by
  have h := hreq_snd U .PATCH p j log
  unfold hpatch
  rcases hh : hreq U .PATCH p j log with ⟨r, log2⟩
  rw [hh] at h
  rcases r with e | ⟨st, body⟩
  · exact h
  · cases body <;> exact h

/-- The `str(e)` message of an upstream HTTP error is never empty. -/
theorem status_error_str_ne_empty (st : Nat) (p : String) :
    status_error_str st p ≠ "" := by
  unfold status_error_str
  intro h
  have h2 := congrArg String.length h
  rw [String.length_append, String.length_append, String.length_append] at h2
  have h3 : (" for url ").length = 9 := rfl
  have h4 : ("" : String).length = 0 := rfl
  omega

/-! ## Claim theorems -/

/-- Claim C1, counterexample: on a transport-level failure of the upstream
call, `get_health` does raise — the claim that it never raises and returns
a degraded result for transport failures too is false on the code, which
catches only `httpx.HTTPStatusError`. -/
theorem C1_counterexample_get_health_transport_raises :
    (get_health U_transportFail []).1 =
      Except.error (HubError.transport "connection refused") := rfl

/-- Claim C1 (amended): `get_health` recovers only from upstream non-2xx
rejections, returning the degraded result with `detail = str(e)` non-empty;
on success it returns the decoded upstream body unchanged; a
transport-level failure propagates as a raised transport error. -/
theorem C1_amended_get_health_catches_only_http_status
    (U1 U2 U3 : Upstream) (st1 st2 : Nat) (b1 : Option JVal) (v : JVal)
    (d : String)
    (h1 : U1 ⟨.GET, "/health", none⟩ = .ok ⟨st1, b1⟩)
    (hs1 : is2xx st1 = false)
    (h2 : U2 ⟨.GET, "/health", none⟩ = .ok ⟨st2, some v⟩)
    (hs2 : is2xx st2 = true)
    (h3 : U3 ⟨.GET, "/health", none⟩ = .error d) :
    (get_health U1 []).1 =
      .ok (degradedHealth (status_error_str st1 "/health")) ∧
    status_error_str st1 "/health" ≠ "" ∧
    (get_health U2 []).1 = .ok v ∧
    (get_health U3 []).1 = .error (.transport d) := by
  refine ⟨?_, status_error_str_ne_empty st1 "/health", ?_, ?_⟩
  · simp [get_health, hget, hreq, h1, hs1, degradedHealth]
  · simp [get_health, hget, hreq, h2, hs2]
  · simp [get_health, hget, hreq, h3]

/-- Witness for C1 (amended) at concrete upstreams: a 404 rejection is
degraded, a 200 body is passed through, a refused connection raises. -/
theorem C1_amended_witness :
    (get_health U_status404 []).1 =
      .ok (degradedHealth (status_error_str 404 "/health")) ∧
    status_error_str 404 "/health" ≠ "" ∧
    (get_health U_okHealth []).1 = .ok (.jobj [("status", .jstr "ok")]) ∧
    (get_health U_transportFail []).1 =
      .error (.transport "connection refused") :=
  C1_amended_get_health_catches_only_http_status U_status404 U_okHealth
    U_transportFail 404 200 (some (.jobj [("message", .jstr "Not Found")]))
    (.jobj [("status", .jstr "ok")]) "connection refused" rfl rfl rfl rfl rfl

/-- Claim C3, counterexample: `create_user` with the `admin` flag omitted
(its Python default, `False`) sends a body that does contain an `admin`
field — the claim that the field is absent is false on the code. -/
theorem C3_counterexample_create_user_sends_admin :
    (create_user U_transportFail "alice") [] =
      (Except.error (HubError.transport "connection refused"),
       [⟨.POST, "/users",
         some (.jobj [("name", .jstr "alice"), ("admin", .jbool false)])⟩]) ∧
    jlookup [("name", JVal.jstr "alice"), ("admin", JVal.jbool false)]
      "admin" = some (.jbool false) :=
  ⟨rfl, rfl⟩

/-- Claim C3 (amended): `modify_user`, `create_group`, `create_token` and
`user_activity` omit optional fields that were not supplied, but
`create_user` always sends both `name` and `admin`, with `admin` equal to
its default `false` when the caller omits it. -/
theorem C3_amended_supplied_fields (U : Upstream) (name uname gname : String)
    (a : Bool) (log : List Request) :
    (modify_user U uname none log).2 =
      log ++ [⟨.PATCH, "/users/" ++ uname, some (.jobj [])⟩] ∧
    (modify_user U uname (some a) log).2 =
      log ++ [⟨.PATCH, "/users/" ++ uname,
        some (.jobj [("admin", .jbool a)])⟩] ∧
    (create_group U gname none log).2 =
      log ++ [⟨.POST, "/groups", some (.jobj [("name", .jstr gname)])⟩] ∧
    (create_token U uname none none log).2 =
      log ++ [⟨.POST, "/users/" ++ uname ++ "/tokens", some (.jobj [])⟩] ∧
    (user_activity U uname none log).2 =
      log ++ [⟨.POST, "/users/" ++ uname ++ "/activity", some (.jobj [])⟩] ∧
    (create_user U name false log).2 =
      log ++ [⟨.POST, "/users",
        some (.jobj [("name", .jstr name), ("admin", .jbool false)])⟩] ∧
    (create_user U name true log).2 =
      log ++ [⟨.POST, "/users",
        some (.jobj [("name", .jstr name), ("admin", .jbool true)])⟩] := by
  refine ⟨?_, ?_, ?_, ?_, ?_, ?_, ?_⟩ <;>
    simp [modify_user, create_group, create_token, user_activity,
      create_user, hpatch_snd, hpost_snd]

/-- Claim C4: a token-creation payload carries at most `note` and
`expires_in`, each present exactly when supplied (and truthy), and the
route forwards nothing else from the request model: its response is
invariant under the `roles` and `scopes` lists. -/
theorem C4_token_payload_minimal (U : Upstream) (u n : String) (x : Int)
    (td : CreateTokenRequest) (log : List Request)
    (hn : n.isEmpty = false) (hx : ¬x = 0) :
    (create_token U u none none log).2 =
      log ++ [⟨.POST, "/users/" ++ u ++ "/tokens", some (.jobj [])⟩] ∧
    (create_token U u (some n) none log).2 =
      log ++ [⟨.POST, "/users/" ++ u ++ "/tokens",
        some (.jobj [("note", .jstr n)])⟩] ∧
    (create_token U u none (some x) log).2 =
      log ++ [⟨.POST, "/users/" ++ u ++ "/tokens",
        some (.jobj [("expires_in", .jint x)])⟩] ∧
    (create_token U u (some n) (some x) log).2 =
      log ++ [⟨.POST, "/users/" ++ u ++ "/tokens",
        some (.jobj [("note", .jstr n), ("expires_in", .jint x)])⟩] ∧
    route_create_token U u td =
      route_create_token U u ⟨td.note, td.expires_in, [], []⟩ := by
  refine ⟨?_, ?_, ?_, ?_, rfl⟩ <;> simp [create_token, hpost_snd, hn, hx]

/-- Witness for C4 at a concrete note, expiry and role/scope-carrying
request model. -/
theorem C4_token_payload_minimal_witness :
    (create_token U_transportFail "alice" none none []).2 =
      [⟨.POST, "/users/" ++ "alice" ++ "/tokens", some (.jobj [])⟩] ∧
    (create_token U_transportFail "alice" (some "audit") none []).2 =
      [⟨.POST, "/users/" ++ "alice" ++ "/tokens",
        some (.jobj [("note", .jstr "audit")])⟩] ∧
    (create_token U_transportFail "alice" none (some 3600) []).2 =
      [⟨.POST, "/users/" ++ "alice" ++ "/tokens",
        some (.jobj [("expires_in", .jint 3600)])⟩] ∧
    (create_token U_transportFail "alice" (some "audit") (some 3600) []).2 =
      [⟨.POST, "/users/" ++ "alice" ++ "/tokens",
        some (.jobj [("note", .jstr "audit"), ("expires_in", .jint 3600)])⟩] ∧
    route_create_token U_transportFail "alice"
        ⟨some "audit", some 3600, ["r1"], ["s1"]⟩ =
      route_create_token U_transportFail "alice"
        ⟨some "audit", some 3600, [], []⟩ :=
  C4_token_payload_minimal U_transportFail "alice" "audit" 3600
    ⟨some "audit", some 3600, ["r1"], ["s1"]⟩ [] rfl (by decide)

/-- Claim C5: a DELETE whose upstream response body is empty yields the
literal deleted payload, a non-empty body is returned decoded, and every
DELETE-issuing adapter operation goes through this one `delete` helper. -/
theorem C5_delete_empty_body_synthesis (U : Upstream) (p1 p2 : String)
    (s1 s2 : Nat) (v : JVal)
    (hU1 : U ⟨.DELETE, p1, none⟩ = .ok ⟨s1, none⟩)
    (hs1 : is2xx s1 = true)
    (hU2 : U ⟨.DELETE, p2, none⟩ = .ok ⟨s2, some v⟩)
    (hs2 : is2xx s2 = true) :
    (hdelete U p1 []).1 = .ok statusDeleted ∧
    (hdelete U p2 []).1 = .ok v ∧
    (∀ n, delete_user U n = hdelete U ("/users/" ++ n)) ∧
    (∀ g, delete_group U g = hdelete U ("/groups/" ++ g)) ∧
    (∀ u s, stop_server U u s = hdelete U ("/users/" ++ u ++ "/servers/" ++ s)) ∧
    (∀ g u, remove_user_from_group U g u =
      hdelete U ("/groups/" ++ g ++ "/users/" ++ u)) ∧
    (∀ u t, delete_token U u t =
      hdelete U ("/users/" ++ u ++ "/tokens/" ++ t)) := by
  refine ⟨?_, ?_, fun _ => rfl, fun _ => rfl, fun _ _ => rfl,
    fun _ _ => rfl, fun _ _ => rfl⟩
  · simp [hdelete, hreq, hU1, hs1]
  · simp [hdelete, hreq, hU2, hs2]

/-- Witness for C5: deleting `alice` (empty upstream body) yields the
literal deleted payload; deleting `bob` (non-empty body) yields that
body. -/
theorem C5_delete_empty_body_synthesis_witness :
    (hdelete U_deleteDemo "/users/alice" []).1 = .ok statusDeleted ∧
    (hdelete U_deleteDemo "/users/bob" []).1 =
      .ok (.jobj [("ok", .jbool true)]) ∧
    delete_user U_deleteDemo "alice" =
      hdelete U_deleteDemo ("/users/" ++ "alice") := by
  have h := C5_delete_empty_body_synthesis U_deleteDemo "/users/alice"
    "/users/bob" 204 200 (.jobj [("ok", .jbool true)]) rfl rfl rfl rfl
  exact ⟨h.1, h.2.1, h.2.2.1 "alice"⟩

/-- Claim C6: `list_servers` issues exactly one GET — of the full user
record, never a server-specific request — and returns the record's
`servers` mapping unmodified. -/
theorem C6_list_servers_derived_read (U : Upstream) (user : String)
    (st : Nat) (fields : List (String × JVal)) (sv : JVal)
    (hU : U ⟨.GET, "/users/" ++ user, none⟩ = .ok ⟨st, some (.jobj fields)⟩)
    (hs : is2xx st = true)
    (hsv : jlookup fields "servers" = some sv) :
    list_servers U user [] = (.ok sv, [⟨.GET, "/users/" ++ user, none⟩]) := by
  simp [list_servers, hget, hreq, hU, hs, hsv]

/-- Witness for C6: a user whose record maps server names the empty string
and `gpu` gets exactly that mapping back, off a single user-record GET. -/
theorem C6_list_servers_derived_read_witness :
    list_servers U_aliceServers "alice" [] =
      (.ok aliceServersVal, [⟨.GET, "/users/" ++ "alice", none⟩]) :=
  C6_list_servers_derived_read U_aliceServers "alice" 200 aliceFields
    aliceServersVal rfl rfl rfl

/-- Claim C7: group-membership mutations have the two asymmetric request
shapes — add POSTs the username inside a list-valued field to the group's
users sub-resource, remove DELETEs the user-scoped sub-resource with no
body — and creating a group with (non-empty) initial members sends the
single POST with both `name` and `users`. -/
theorem C7_group_membership_shapes (U : Upstream) (g u : String)
    (members : List String) (log : List Request)
    (hm : members.isEmpty = false) :
    (create_group U g (some members) log).2 =
      log ++ [⟨.POST, "/groups",
        some (.jobj [("name", .jstr g),
                     ("users", .jarr (members.map .jstr))])⟩] ∧
    (add_user_to_group U g u log).2 =
      log ++ [⟨.POST, "/groups/" ++ g ++ "/users",
        some (.jobj [("users", .jarr [.jstr u])])⟩] ∧
    (remove_user_from_group U g u log).2 =
      log ++ [⟨.DELETE, "/groups/" ++ g ++ "/users/" ++ u, none⟩] := by
  refine ⟨?_, ?_, ?_⟩ <;>
    simp [create_group, add_user_to_group, remove_user_from_group, hm,
      hpost_snd, hdelete_snd]

/-- Witness for C7, the spec's scenario: create `scientists` with
`alice`, `bob`; add `carol`; remove `bob`. -/
theorem C7_group_membership_shapes_witness :
    (create_group U_okEmptyObj "scientists" (some ["alice", "bob"]) []).2 =
      [⟨.POST, "/groups",
        some (.jobj [("name", .jstr "scientists"),
                     ("users", .jarr [.jstr "alice", .jstr "bob"])])⟩] ∧
    (add_user_to_group U_okEmptyObj "scientists" "carol" []).2 =
      [⟨.POST, "/groups/" ++ "scientists" ++ "/users",
        some (.jobj [("users", .jarr [.jstr "carol"])])⟩] ∧
    (remove_user_from_group U_okEmptyObj "scientists" "bob" []).2 =
      [⟨.DELETE, "/groups/" ++ "scientists" ++ "/users/" ++ "bob", none⟩] := by
  have h1 := C7_group_membership_shapes U_okEmptyObj "scientists" "carol"
    ["alice", "bob"] [] rfl
  have h2 := C7_group_membership_shapes U_okEmptyObj "scientists" "bob"
    ["alice", "bob"] [] rfl
  exact ⟨h1.1, h1.2.1, h2.2.2⟩

/-- Claim C8: for every user and server name (the empty string denoting
the default server), a successful start-server route responds 201 and a
successful stop-server route responds 202, whatever body the upstream
produced. -/
theorem C8_server_lifecycle_status_codes (U : Upstream) (user sname : String)
    (v w : JVal)
    (h1 : (start_server U user sname none []).1 = .ok v)
    (h2 : (stop_server U user sname []).1 = .ok w) :
    route_start_server U user sname = ⟨201, v⟩ ∧
    route_stop_server U user sname = ⟨202, w⟩ := by
  constructor
  · simp [route_start_server, serve, plain, h1]
  · simp [route_stop_server, serve, plain, h2]

/-- Witness for C8, the spec's scenario: start then stop the unnamed
server of `alice` against an upstream that accepts both. -/
theorem C8_server_lifecycle_status_codes_witness :
    route_start_server U_okEmptyObj "alice" "" = ⟨201, .jobj []⟩ ∧
    route_stop_server U_okEmptyObj "alice" "" = ⟨202, .jobj []⟩ :=
  C8_server_lifecycle_status_codes U_okEmptyObj "alice" "" (.jobj [])
    (.jobj []) rfl rfl

/-- Claim C9: a request-handling trace through the `get_client` dependency
closes the adapter it opened exactly once on teardown, whether the
handler's adapter call returned or raised, and its outcome is the
handler's own. -/
theorem C9_client_closed_exactly_once {α : Type} (op : HubM α) :
    (run_with_client (handler_of_op op)).2.closeCount = 1 ∧
    (run_with_client (handler_of_op op)).1 = (op []).1 :=
  ⟨rfl, rfl⟩

/-- Claim C10: falsy optional values are treated as absent — an empty-string
note, a zero expiry and an empty initial-users list behave exactly as the
omitted value, so those fields never reach the upstream payload. -/
theorem C10_falsy_optionals_omitted (U : Upstream) (u g : String)
    (note2 : Option String) (e2 : Option Int) (log : List Request) :
    create_token U u (some "") e2 log = create_token U u none e2 log ∧
    create_token U u note2 (some 0) log = create_token U u note2 none log ∧
    create_group U g (some []) log = create_group U g none log ∧
    (create_group U g (some []) log).2 =
      log ++ [⟨.POST, "/groups", some (.jobj [("name", .jstr g)])⟩] ∧
    (create_token U u (some "") (some 0) log).2 =
      log ++ [⟨.POST, "/users/" ++ u ++ "/tokens", some (.jobj [])⟩] := by
  refine ⟨rfl, rfl, rfl, ?_, ?_⟩ <;>
    simp [create_group, create_token, hpost_snd,
      show "".isEmpty = true from rfl]

/-- Claim C2: when the adapter's `get_user` raises any failure, the
get-user route answers 404 with a message containing the username; every
other route lets an adapter failure surface as the generic server
error — no other route translates. -/
theorem C2_get_user_only_error_translation (U : Upstream)
    (username gname svcname tid sname : String)
    (cu : CreateUserRequest) (cg : CreateGroupRequest)
    (ct : CreateTokenRequest) (adminQ : Option Bool)
    (e1 e2 e3 e4 e5 e6 e7 e8 e9 e10 e11 e12 e13 e14 e15 e16 e17 e18 e19
      e20 e21 e22 e23 e24 e25 : HubError)
    (h1 : (get_user U username []).1 = .error e1)
    (h2 : (get_health U []).1 = .error e2)
    (h3 : (get_info U []).1 = .error e3)
    (h4 : (list_users U []).1 = .error e4)
    (h5 : (create_user U cu.name cu.admin []).1 = .error e5)
    (h6 : (delete_user U username []).1 = .error e6)
    (h7 : (modify_user U username adminQ []).1 = .error e7)
    (h8 : (list_servers U username []).1 = .error e8)
    (h9 : (get_server U username sname []).1 = .error e9)
    (h10 : (start_server U username sname none []).1 = .error e10)
    (h11 : (stop_server U username sname []).1 = .error e11)
    (h12 : (list_groups U []).1 = .error e12)
    (h13 : (get_group U gname []).1 = .error e13)
    (h14 : (create_group U cg.name (some cg.users) []).1 = .error e14)
    (h15 : (delete_group U gname []).1 = .error e15)
    (h16 : (add_user_to_group U gname username []).1 = .error e16)
    (h17 : (remove_user_from_group U gname username []).1 = .error e17)
    (h18 : (list_services U []).1 = .error e18)
    (h19 : (get_service U svcname []).1 = .error e19)
    (h20 : (list_tokens U []).1 = .error e20)
    (h21 : (create_token U username ct.note ct.expires_in []).1 = .error e21)
    (h22 : (delete_token U username tid []).1 = .error e22)
    (h23 : (shutdown_hub U []).1 = .error e23)
    (h24 : (get_proxy U []).1 = .error e24)
    (h25 : (cull_servers U []).1 = .error e25) :
    (route_get_user U username =
       ⟨404, .jobj [("detail",
         .jstr ("User " ++ username ++ " not found"))]⟩ ∧
     ∃ pre suf, ("User " ++ username ++ " not found") =
       pre ++ username ++ suf) ∧
    route_health U = internalError ∧
    route_info U = internalError ∧
    route_list_users U = internalError ∧
    route_create_user U cu = internalError ∧
    route_delete_user U username = internalError ∧
    route_modify_user U username adminQ = internalError ∧
    route_list_user_servers U username = internalError ∧
    route_get_server U username sname = internalError ∧
    route_start_server U username sname = internalError ∧
    route_stop_server U username sname = internalError ∧
    route_list_groups U = internalError ∧
    route_get_group U gname = internalError ∧
    route_create_group U cg = internalError ∧
    route_delete_group U gname = internalError ∧
    route_add_user_to_group U gname username = internalError ∧
    route_remove_user_from_group U gname username = internalError ∧
    route_list_services U = internalError ∧
    route_get_service U svcname = internalError ∧
    route_list_tokens U = internalError ∧
    route_create_token U username ct = internalError ∧
    route_delete_token U username tid = internalError ∧
    route_shutdown_hub U = internalError ∧
    route_get_proxy_info U = internalError ∧
    route_cull_servers U = internalError := by
  refine ⟨⟨?_, ⟨"User ", " not found", rfl⟩⟩, ?_, ?_, ?_, ?_, ?_, ?_, ?_,
    ?_, ?_, ?_, ?_, ?_, ?_, ?_, ?_, ?_, ?_, ?_, ?_, ?_, ?_, ?_, ?_, ?_⟩
  · simp [route_get_user, serve, h1]
  · simp [route_health, serve, plain, h2]
  · simp [route_info, serve, plain, h3]
  · simp [route_list_users, serve, plain, h4]
  · simp [route_create_user, serve, plain, h5]
  · simp [route_delete_user, serve, h6]
  · simp [route_modify_user, serve, plain, h7]
  · simp [route_list_user_servers, serve, plain, h8]
  · simp [route_get_server, serve, plain, h9]
  · simp [route_start_server, serve, plain, h10]
  · simp [route_stop_server, serve, plain, h11]
  · simp [route_list_groups, serve, plain, h12]
  · simp [route_get_group, serve, plain, h13]
  · simp [route_create_group, serve, plain, h14]
  · simp [route_delete_group, serve, h15]
  · simp [route_add_user_to_group, serve, plain, h16]
  · simp [route_remove_user_from_group, serve, h17]
  · simp [route_list_services, serve, plain, h18]
  · simp [route_get_service, serve, plain, h19]
  · simp [route_list_tokens, serve, plain, h20]
  · simp [route_create_token, serve, plain, h21]
  · simp [route_delete_token, serve, h22]
  · simp [route_shutdown_hub, serve, plain, h23]
  · simp [route_get_proxy_info, serve, plain, h24]
  · simp [route_cull_servers, serve, plain, h25]

/-- Witness for C2 at an upstream that refuses every connection: the
get-user route answers 404 naming `alice`; every other route answers the
generic server error. -/
theorem C2_get_user_only_error_translation_witness :
    (route_get_user U_transportFail "alice" =
       ⟨404, .jobj [("detail",
         .jstr ("User " ++ "alice" ++ " not found"))]⟩ ∧
     ∃ pre suf, ("User " ++ "alice" ++ " not found") =
       pre ++ "alice" ++ suf) ∧
    route_health U_transportFail = internalError ∧
    route_info U_transportFail = internalError ∧
    route_list_users U_transportFail = internalError ∧
    route_create_user U_transportFail ⟨"bob", false⟩ = internalError ∧
    route_delete_user U_transportFail "alice" = internalError ∧
    route_modify_user U_transportFail "alice" none = internalError ∧
    route_list_user_servers U_transportFail "alice" = internalError ∧
    route_get_server U_transportFail "alice" "" = internalError ∧
    route_start_server U_transportFail "alice" "" = internalError ∧
    route_stop_server U_transportFail "alice" "" = internalError ∧
    route_list_groups U_transportFail = internalError ∧
    route_get_group U_transportFail "scientists" = internalError ∧
    route_create_group U_transportFail ⟨"scientists", []⟩ = internalError ∧
    route_delete_group U_transportFail "scientists" = internalError ∧
    route_add_user_to_group U_transportFail "scientists" "alice" =
      internalError ∧
    route_remove_user_from_group U_transportFail "scientists" "alice" =
      internalError ∧
    route_list_services U_transportFail = internalError ∧
    route_get_service U_transportFail "svc" = internalError ∧
    route_list_tokens U_transportFail = internalError ∧
    route_create_token U_transportFail "alice" ⟨none, none, [], []⟩ =
      internalError ∧
    route_delete_token U_transportFail "alice" "tid" = internalError ∧
    route_shutdown_hub U_transportFail = internalError ∧
    route_get_proxy_info U_transportFail = internalError ∧
    route_cull_servers U_transportFail = internalError :=
  C2_get_user_only_error_translation U_transportFail "alice" "scientists"
    "svc" "tid" "" ⟨"bob", false⟩ ⟨"scientists", []⟩ ⟨none, none, [], []⟩
    none
    (.transport "connection refused") (.transport "connection refused")
    (.transport "connection refused") (.transport "connection refused")
    (.transport "connection refused") (.transport "connection refused")
    (.transport "connection refused") (.transport "connection refused")
    (.transport "connection refused") (.transport "connection refused")
    (.transport "connection refused") (.transport "connection refused")
    (.transport "connection refused") (.transport "connection refused")
    (.transport "connection refused") (.transport "connection refused")
    (.transport "connection refused") (.transport "connection refused")
    (.transport "connection refused") (.transport "connection refused")
    (.transport "connection refused") (.transport "connection refused")
    (.transport "connection refused") (.transport "connection refused")
    (.transport "connection refused")
    rfl rfl rfl rfl rfl rfl rfl rfl rfl rfl rfl rfl rfl rfl rfl rfl rfl
    rfl rfl rfl rfl rfl rfl rfl rfl
